import Mathlib

/-!
# 17Call voucher / call-settlement core: a shallow embedding

This file embeds the voucher-lifecycle and call-settlement logic of
`src/app.js` (Express endpoints over a PostgreSQL store described in
`src/17call_schema.sql`) as pure Lean functions over an explicit database
state, and proves or refutes the specification's claims about it.

Modelling conventions:
* a database row of `vouchers`, `call_logs`, `voucher_batches` becomes a
  structure; a table becomes a `List` of rows inside `DB`;
* SQL timestamps are abstract `Nat` instants supplied by the caller
  (`now`);
* JavaScript's `Math.random`-driven code generator becomes an explicit
  stream `gen : Nat → String` consumed at increasing indices, and the
  unbounded retry loop of the generator gets explicit fuel;
* a failed HTTP request maps to `Except.error` carrying the literal
  error string the endpoint sends; endpoints that manage a transaction
  return the (possibly rolled-back) database alongside the `Except`;
* JavaScript truthiness on request strings (`!code`) is emptiness of the
  string.
-/

/-- Status column of `call_logs` (`'active','completed','failed','cancelled'`). -/
inductive CallStatus where
  | active
  | completed
  | failed
  | cancelled
deriving DecidableEq, Repr

/-- A row of the `vouchers` table. -/
structure Voucher where
  id : Nat
  code : String
  durationMinutes : Int
  remainingMinutes : Int
  isUsed : Bool
  isActive : Bool
  deviceId : Option String
  usedAt : Option Nat
  batchId : Option Nat
deriving DecidableEq, Repr

/-- A row of the `call_logs` table. -/
structure CallLog where
  callId : String
  voucherId : Option Nat
  phoneNumber : String
  countryCode : String
  callType : String
  durationSeconds : Int
  status : CallStatus
  startedAt : Nat
  endedAt : Option Nat
  deviceId : Option String
deriving DecidableEq, Repr

/-- A row of the `voucher_batches` table. -/
structure Batch where
  id : Nat
  quantity : Nat
  durationMinutes : Int
deriving DecidableEq, Repr

/-- The persistent store: the three tables the core logic touches. -/
structure DB where
  vouchers : List Voucher
  calls : List CallLog
  batches : List Batch
deriving DecidableEq, Repr

/-- JavaScript `String.prototype.toUpperCase` on the code parameter,
character by character. -/
def toUpperCase (s : String) : String := ⟨s.data.map Char.toUpper⟩

/-- `SELECT ... FROM vouchers WHERE code = $1` (the stored codes are compared
verbatim against the already-uppercased parameter). -/
def findVoucherByCode (db : DB) (code : String) : Option Voucher :=
  db.vouchers.find? (fun v => v.code == code)

/-- `SELECT ... FROM vouchers WHERE id = $1`. -/
def findVoucherById (db : DB) (vid : Nat) : Option Voucher :=
  db.vouchers.find? (fun v => v.id == vid)

/-- `SELECT ... FROM call_logs WHERE call_id = $1`. -/
def findCallById (db : DB) (cid : String) : Option CallLog :=
  db.calls.find? (fun c => c.callId == cid)

/-- The row shape produced by the `SELECT id, duration_minutes,
remaining_minutes, is_used, is_active FROM vouchers` query of
`POST /api/v1/vouchers/validate`: exactly the five selected columns. -/
structure ValidateRow where
  id : Nat
  duration_minutes : Int
  remaining_minutes : Int
  is_used : Bool
  is_active : Bool
deriving DecidableEq, Repr

/-- The endpoint then reads `voucher.device_id`, a column that is **not** in
the `SELECT` list, so in JavaScript the access yields `undefined`. -/
def ValidateRow.device_id (_ : ValidateRow) : Option String := none

/-- Response body of `POST /api/v1/vouchers/validate`. -/
structure ValidateResp where
  valid : Bool
  durationMinutes : Int
  voucherId : Option Nat
deriving DecidableEq, Repr

/-- `POST /api/v1/vouchers/validate` (src/app.js lines 77-118). -/
def validate (code deviceId : String) (db : DB) : Except String (ValidateResp × DB) :=
  if code = "" ∨ deviceId = "" then
    .error "Code and deviceId are required"
  else
    match findVoucherByCode db (toUpperCase code) with
    | none => .ok ({ valid := false, durationMinutes := 0, voucherId := none }, db)
    | some v =>
      let row : ValidateRow :=
        { id := v.id, duration_minutes := v.durationMinutes,
          remaining_minutes := v.remainingMinutes,
          is_used := v.isUsed, is_active := v.isActive }
      if row.is_active = false ∨ row.is_used = true ∨ row.remaining_minutes ≤ 0 then
        .ok ({ valid := false, durationMinutes := 0, voucherId := none }, db)
      else
        -- `if (!voucher.device_id)` — always true, since the row has no such column
        let db' :=
          if row.device_id = none then
            { db with vouchers :=
                db.vouchers.map (fun w =>
                  if w.id == row.id then { w with deviceId := some deviceId } else w) }
          else db
        .ok ({ valid := true, durationMinutes := row.remaining_minutes,
               voucherId := some row.id }, db')

/-- Response body of `POST /api/v1/calls/start`. -/
structure StartCallResp where
  callId : String
  remainingMinutes : Int
deriving DecidableEq, Repr

/-- `POST /api/v1/calls/start` (src/app.js lines 121-170); `freshCallId` is
the `uuidv4()` value, `now` the database clock. -/
def startCall (voucherId : Nat) (phoneNumber countryCode callType : String)
    (freshCallId : String) (now : Nat) (db : DB) :
    Except String (StartCallResp × DB) :=
  if phoneNumber = "" ∨ countryCode = "" ∨ callType = "" then
    .error "All fields are required"
  else
    match db.vouchers.find? (fun v => v.id == voucherId && v.isActive && !v.isUsed) with
    | none => .error "Invalid or expired voucher"
    | some v =>
      if v.remainingMinutes ≤ 0 then
        .error "No minutes remaining on voucher"
      else
        let c : CallLog :=
          { callId := freshCallId, voucherId := some voucherId,
            phoneNumber := phoneNumber, countryCode := countryCode,
            callType := callType, durationSeconds := 0,
            status := .active, startedAt := now, endedAt := none,
            deviceId := v.deviceId }
        .ok ({ callId := freshCallId, remainingMinutes := v.remainingMinutes },
             { db with calls := db.calls ++ [c] })

/-- `Math.ceil(actualDurationSeconds / 60)`: the exact ceiling of `s / 60`,
written with floor division as `-⌊-s / 60⌋`. -/
def minutesUsed (s : Int) : Int := -((-s).fdiv 60)

/-- The single `UPDATE vouchers SET remaining_minutes = GREATEST(0,
remaining_minutes - $1), is_used = CASE ..., used_at = CASE ... WHERE id = $2`
of `POST /api/v1/calls/end`, as a row transformer (every right-hand side reads
the old row, per SQL semantics). -/
def debitVoucher (m : Int) (now : Nat) (v : Voucher) : Voucher :=
  { v with
    remainingMinutes := max 0 (v.remainingMinutes - m),
    isUsed := if v.remainingMinutes - m ≤ 0 then true else v.isUsed,
    usedAt := if v.remainingMinutes - m ≤ 0 ∧ v.usedAt = none then some now else v.usedAt }

/-- Response body of `POST /api/v1/calls/end`. -/
structure EndCallResp where
  remainingMinutes : Int
deriving DecidableEq, Repr

/-- `POST /api/v1/calls/end` (src/app.js lines 173-234). The endpoint looks
the call up, unconditionally marks it completed, and runs the debit `UPDATE`
against `call.voucher_id`; `rows[0]?.remaining_minutes || 0` becomes
`Option.getD 0`. -/
def endCall (callId : String) (actualDurationSeconds : Int) (now : Nat) (db : DB) :
    Except String (EndCallResp × DB) :=
  if callId = "" then
    .error "CallId and actualDurationSeconds are required"
  else
    match findCallById db callId with
    | none => .error "Call not found"
    | some call =>
      let m := minutesUsed actualDurationSeconds
      let calls' := db.calls.map (fun c =>
        if c.callId == callId then
          { c with durationSeconds := actualDurationSeconds,
                   status := .completed, endedAt := some now }
        else c)
      let vouchers' :=
        match call.voucherId with
        | none => db.vouchers
        | some vid =>
          db.vouchers.map (fun v => if v.id == vid then debitVoucher m now v else v)
      let returned : Option Int :=
        match call.voucherId with
        | none => none
        | some vid =>
          (findVoucherById db vid).map (fun v => (debitVoucher m now v).remainingMinutes)
      .ok ({ remainingMinutes := returned.getD 0 },
           { db with calls := calls', vouchers := vouchers' })

/-- The `while (!isUnique) { code = generateVoucherCode(); ... }` retry loop
shared by both admin generation endpoints: draw candidates `gen idx`,
`gen (idx+1)`, ... until one is absent from the existing code set; returns the
fresh code and the next unconsumed stream index. The unbounded loop carries
explicit `fuel`; exhaustion stands for the loop failing to terminate /
erroring, which the endpoints surface as an internal error. -/
def allocUniqueCode (gen : Nat → String) (existing : List String) :
    Nat → Nat → Option (String × Nat)
  | _, 0 => none
  | idx, fuel + 1 =>
    let c := gen idx
    if existing.contains c then allocUniqueCode gen existing (idx + 1) fuel
    else some (c, idx + 1)

/-- `POST /api/v1/admin/vouchers/generate` (src/app.js lines 293-335);
`nextId` is the store's fresh row id. The second component of the result is
the database after the request (unchanged on failure). -/
def generateVoucher (gen : Nat → String) (fuel : Nat) (durationMinutes : Int)
    (nextId : Nat) (db : DB) : Except String String × DB :=
  if durationMinutes ≤ 0 then
    (.error "Valid durationMinutes is required", db)
  else
    match allocUniqueCode gen (db.vouchers.map (fun v => v.code)) 0 fuel with
    | none => (.error "Internal server error", db)
    | some (c, _) =>
      (.ok c,
       { db with vouchers := db.vouchers ++
           [{ id := nextId, code := c, durationMinutes := durationMinutes,
              remainingMinutes := durationMinutes, isUsed := false,
              isActive := true, deviceId := none, usedAt := none,
              batchId := none }] })

/-- The voucher-insertion loop of `POST /api/v1/admin/vouchers/batch`, run
inside the `BEGIN`/`COMMIT` transaction: at each of the `q` remaining
iterations it allocates a unique code against the codes visible to the
transaction (`existing`, which includes this transaction's own inserts) and
inserts a voucher. `insertOk i` injects a storage failure into the insert of
iteration `i` (counted by remaining iterations); any failure makes the whole
loop — and hence the transaction — fail. Returns the rows inserted, in
creation order. -/
def batchLoop (gen : Nat → String) (fuel : Nat) (durationMinutes : Int)
    (batchId : Nat) (insertOk : Nat → Bool) :
    Nat → Nat → Nat → List String → Option (List Voucher)
  | 0, _, _, _ => some []
  | q + 1, idx, nextId, existing =>
    match allocUniqueCode gen existing idx fuel with
    | none => none
    | some (c, idx') =>
      if insertOk (q + 1) then
        match batchLoop gen fuel durationMinutes batchId insertOk
            q idx' (nextId + 1) (existing ++ [c]) with
        | none => none
        | some vs =>
          some ({ id := nextId, code := c, durationMinutes := durationMinutes,
                  remainingMinutes := durationMinutes, isUsed := false,
                  isActive := true, deviceId := none, usedAt := none,
                  batchId := some batchId } :: vs)
      else none

/-- `POST /api/v1/admin/vouchers/batch` (src/app.js lines 338-412). The batch
record and all vouchers are written inside one transaction; any failure runs
`ROLLBACK`, so on error the returned database is the caller's database
unchanged. On success the response carries the generated codes in creation
order. -/
def allocateBatch (gen : Nat → String) (fuel : Nat) (insertOk : Nat → Bool)
    (quantity : Nat) (durationMinutes : Int) (batchId nextId : Nat) (db : DB) :
    Except String (List String) × DB :=
  if quantity = 0 ∨ durationMinutes ≤ 0 then
    (.error "Valid quantity and durationMinutes are required", db)
  else if 1000 < quantity then
    (.error "Maximum 1000 vouchers per batch", db)
  else
    match batchLoop gen fuel durationMinutes batchId insertOk
        quantity 0 nextId (db.vouchers.map (fun v => v.code)) with
    | none => (.error "Internal server error", db)
    | some vs =>
      (.ok (vs.map (fun v => v.code)),
       { db with
           vouchers := db.vouchers ++ vs,
           batches := db.batches ++
             [{ id := batchId, quantity := quantity,
                durationMinutes := durationMinutes }] })

/-- The states reachable from a call-free store by the five state-changing
endpoints of src/app.js (a failed request leaves the store unchanged, so
closing under the successful outcomes suffices). -/
inductive Reachable : DB → Prop where
  | init (vs : List Voucher) (bs : List Batch) :
      Reachable { vouchers := vs, calls := [], batches := bs }
  | vstep (code dev : String) (db : DB) (r : ValidateResp) (db' : DB) :
      Reachable db → validate code dev db = .ok (r, db') → Reachable db'
  | sstep (vid : Nat) (p cc ct fid : String) (now : Nat) (db : DB)
      (r : StartCallResp) (db' : DB) :
      Reachable db → startCall vid p cc ct fid now db = .ok (r, db') →
      Reachable db'
  | estep (cid : String) (s : Int) (now : Nat) (db : DB)
      (r : EndCallResp) (db' : DB) :
      Reachable db → endCall cid s now db = .ok (r, db') → Reachable db'
  | gstep (gen : Nat → String) (fuel : Nat) (dm : Int) (nid : Nat) (db : DB)
      (c : String) (db' : DB) :
      Reachable db → generateVoucher gen fuel dm nid db = (.ok c, db') →
      Reachable db'
  | bstep (gen : Nat → String) (fuel : Nat) (iok : Nat → Bool) (q : Nat)
      (dm : Int) (bid nid : Nat) (db : DB) (cs : List String) (db' : DB) :
      Reachable db → allocateBatch gen fuel iok q dm bid nid db = (.ok cs, db') →
      Reachable db'

/-! ## Concrete stores used by individual claims -/

/-- One fresh 10-minute voucher with one active call (claim C1). -/
def dbC1 : DB :=
  { vouchers := [{ id := 1, code := "C1VOUCHER000", durationMinutes := 10,
                   remainingMinutes := 10, isUsed := false, isActive := true,
                   deviceId := none, usedAt := none, batchId := none }],
    calls := [{ callId := "c1", voucherId := some 1, phoneNumber := "5551000",
                countryCode := "1", callType := "local", durationSeconds := 0,
                status := .active, startedAt := 0, endedAt := none,
                deviceId := none }],
    batches := [] }

/-- One fresh 10-minute voucher with one active call (claim C2). -/
def dbC2 : DB :=
  { vouchers := [{ id := 2, code := "C2VOUCHER000", durationMinutes := 10,
                   remainingMinutes := 10, isUsed := false, isActive := true,
                   deviceId := none, usedAt := none, batchId := none }],
    calls := [{ callId := "c2", voucherId := some 2, phoneNumber := "5552000",
                countryCode := "1", callType := "local", durationSeconds := 0,
                status := .active, startedAt := 0, endedAt := none,
                deviceId := none }],
    batches := [] }

/-- One eligible voucher already bound to device `devA` (claim C3). -/
def dbC3 : DB :=
  { vouchers := [{ id := 3, code := "ABCDEFGHIJKL", durationMinutes := 10,
                   remainingMinutes := 5, isUsed := false, isActive := true,
                   deviceId := some "devA", usedAt := none, batchId := none }],
    calls := [], batches := [] }

/-- A voucher with 3 of 5 minutes left and one active call (claim C7). -/
def dbC7 : DB :=
  { vouchers := [{ id := 10, code := "C7VOUCHER000", durationMinutes := 5,
                   remainingMinutes := 3, isUsed := false, isActive := true,
                   deviceId := none, usedAt := none, batchId := none }],
    calls := [{ callId := "c7", voucherId := some 10, phoneNumber := "5557000",
                countryCode := "1", callType := "local", durationSeconds := 0,
                status := .active, startedAt := 0, endedAt := none,
                deviceId := none }],
    batches := [] }

/-- A call whose voucher reference points at no stored voucher (claim C9). -/
def dbC9 : DB :=
  { vouchers := [],
    calls := [{ callId := "c9", voucherId := some 99, phoneNumber := "5559000",
                countryCode := "1", callType := "local", durationSeconds := 0,
                status := .active, startedAt := 0, endedAt := none,
                deviceId := none }],
    batches := [] }

/-- Run a sequence of debits — the serialization order the store picks for a
set of concurrent single-statement `UPDATE`s on one voucher row — against a
voucher. -/
def applyDebits (now : Nat) (v : Voucher) (ms : List Int) : Voucher :=
  ms.foldl (fun w m => debitVoucher m now w) v

/-- The voucher of the C5 witness store: 7 of 9 minutes left. -/
def vC5w : Voucher :=
  { id := 50, code := "C5VOUCHER000", durationMinutes := 9,
    remainingMinutes := 7, isUsed := false, isActive := true,
    deviceId := none, usedAt := none, batchId := none }

/-- The call of the C5 witness store. -/
def callC5w : CallLog :=
  { callId := "cw5", voucherId := some 50, phoneNumber := "5555000",
    countryCode := "1", callType := "local", durationSeconds := 0,
    status := .active, startedAt := 0, endedAt := none, deviceId := none }

/-- The C5 witness store. -/
def dbC5w : DB := { vouchers := [vC5w], calls := [callC5w], batches := [] }

/-- The voucher of the C10 witness store: 6 minutes, fresh. -/
def vC10w : Voucher :=
  { id := 60, code := "CXVOUCHER000", durationMinutes := 6,
    remainingMinutes := 6, isUsed := false, isActive := true,
    deviceId := none, usedAt := none, batchId := none }

/-- The call of the C10 witness store. -/
def callC10w : CallLog :=
  { callId := "cw10", voucherId := some 60, phoneNumber := "5551060",
    countryCode := "1", callType := "local", durationSeconds := 0,
    status := .active, startedAt := 4, endedAt := none, deviceId := none }

/-- The C10 witness store: one call started on `vC10w`. -/
def dbC10w : DB :=
  { vouchers := [vC10w], calls := [callC10w], batches := [] }

/-! ## Claims -/

/-- **C1** (code_bug). The claim says a repeated `EndCall` on an
already-terminal call is rejected (`AlreadyTerminal`) and the voucher is
debited once. The endpoint never inspects `status`, so ending call `c1`
(61 s, a 2-minute debit) twice is accepted both times and debits the
10-minute voucher twice: balance 10 → 8 → 6. -/
theorem endCall_repeated_invocation_debits_twice :
    ∃ db₁ db₂,
      endCall "c1" 61 5 dbC1 = .ok ({ remainingMinutes := 8 }, db₁) ∧
      (findCallById db₁ "c1").map (fun c => c.status) = some .completed ∧
      endCall "c1" 61 7 db₁ = .ok ({ remainingMinutes := 6 }, db₂) ∧
      (findVoucherById db₂ 1).map (fun v => v.remainingMinutes) = some 6 := by
  exact ⟨_, _, rfl, rfl, rfl, rfl⟩

/-- **C2** (code_bug). The claim says `0 ≤ remainingMinutes ≤ durationMinutes`
always holds and balances never increase. Because `EndCall` never rejects a
negative `actualDurationSeconds`, `Math.ceil(-120 / 60) = -2` is handed to the
debit `UPDATE`, whose `GREATEST(0, ...)` only clamps below: the balance of the
10-minute voucher rises to 12, above its `durationMinutes`. -/
theorem endCall_negative_duration_breaks_balance_invariant :
    ∃ db' v,
      endCall "c2" (-120) 5 dbC2 = .ok ({ remainingMinutes := 12 }, db') ∧
      findVoucherById db' 2 = some v ∧
      (findVoucherById dbC2 2).map (fun w => w.remainingMinutes) = some 10 ∧
      v.durationMinutes < v.remainingMinutes ∧
      10 < v.remainingMinutes := by
  refine ⟨_, _, rfl, rfl, rfl, ?_, ?_⟩ <;> decide

/-- **C3** (code_bug). The claim (and the comment in the endpoint itself) says
`deviceId` is written at most once, first-writer-wins. The `SELECT` feeding
the check omits the `device_id` column, so `!voucher.device_id` always sees
`undefined` and every successful validation rebinds the voucher: a voucher
bound to `devA` ends up bound to `devB` after `devB` validates it. -/
theorem validate_rebinds_already_bound_voucher :
    ∃ db',
      (findVoucherById dbC3 3).map (fun v => v.deviceId) = some (some "devA") ∧
      validate "ABCDEFGHIJKL" "devB" dbC3 =
        .ok ({ valid := true, durationMinutes := 5, voucherId := some 3 }, db') ∧
      (findVoucherById db' 3).map (fun v => v.deviceId) = some (some "devB") := by
  refine ⟨{ vouchers := [{ id := 3, code := "ABCDEFGHIJKL", durationMinutes := 10,
                           remainingMinutes := 5, isUsed := false, isActive := true,
                           deviceId := some "devB", usedAt := none, batchId := none }],
            calls := [], batches := [] }, rfl, rfl, rfl⟩

/-- **C7** (code_bug). The claim says `EndCall` with a negative
`actualDurationSeconds` fails with `InvalidArgument` and changes nothing. The
endpoint only checks the field is present, so `-61` seconds is accepted, the
call is marked completed, and `Math.ceil(-61 / 60) = -1` *credits* the
voucher: balance 3 → 4. -/
theorem endCall_negative_duration_is_accepted :
    ∃ db',
      endCall "c7" (-61) 2 dbC7 = .ok ({ remainingMinutes := 4 }, db') ∧
      (findVoucherById dbC7 10).map (fun v => v.remainingMinutes) = some 3 ∧
      (findVoucherById db' 10).map (fun v => v.remainingMinutes) = some 4 ∧
      (findCallById db' "c7").map (fun c => c.status) = some .completed := by
  exact ⟨_, rfl, rfl, rfl, rfl⟩

/-- **C6** (counterexample). As stated, the claim quantifies over *every*
input; but with an empty `code` the endpoint answers with an error response
(`!code` guard), not with `valid = false`. -/
theorem validate_empty_code_returns_error :
    validate "" "device1" { vouchers := [], calls := [], batches := [] } =
      .error "Code and deviceId are required" := rfl

/-- **C9** (counterexample). The claim says the debit fails with `NotFound`
when the voucher id is unknown; instead the endpoint's
`rows[0]?.remaining_minutes || 0` swallows the empty update and `EndCall`
returns a normal result with `remainingMinutes = 0`. -/
theorem endCall_unknown_voucher_returns_ok_zero :
    ∃ db', endCall "c9" 60 1 dbC9 = .ok ({ remainingMinutes := 0 }, db') :=
  ⟨_, rfl⟩

/-! ## C4: serialized debits never lose updates -/

lemma applyDebits_remaining (now : Nat) :
    ∀ (ms : List Int) (v : Voucher),
      (∀ m ∈ ms, 0 ≤ m) → ms.sum ≤ v.remainingMinutes →
      (applyDebits now v ms).remainingMinutes = v.remainingMinutes - ms.sum := by
  intro ms
  induction ms with
  | nil => intro v _ _; simp [applyDebits]
  | cons m ms ih =>
    intro v hnn hsum
    have hm : 0 ≤ m := hnn m (List.mem_cons_self m ms)
    have hrest : 0 ≤ ms.sum :=
      List.sum_nonneg (fun x hx => hnn x (List.mem_cons_of_mem m hx))
    have hsum' : m + ms.sum ≤ v.remainingMinutes := by
      simpa [List.sum_cons] using hsum
    have hstep : (debitVoucher m now v).remainingMinutes = v.remainingMinutes - m := by
      simp only [debitVoucher]
      omega
    have : applyDebits now v (m :: ms) = applyDebits now (debitVoucher m now v) ms := rfl
    rw [this, ih (debitVoucher m now v) (fun x hx => hnn x (List.mem_cons_of_mem m hx))
      (by rw [hstep]; omega), hstep]
    simp [List.sum_cons]
    ring

/-- **C4** (confirmed). Each debit is one atomic SQL `UPDATE`, so an
interleaving of N concurrent debits is some serialization order, i.e. a
permutation of the debit amounts. For a fresh voucher and nonnegative amounts
summing to at most the balance, every order ends at
`durationMinutes - sum(mi)`: no clamping, no lost update. -/
theorem concurrent_debits_no_lost_updates
    (now : Nat) (v : Voucher) (ms ms' : List Int)
    (hperm : ms'.Perm ms)
    (hnn : ∀ m ∈ ms, 0 ≤ m)
    (hsum : ms.sum ≤ v.remainingMinutes)
    (hfresh : v.remainingMinutes = v.durationMinutes) :
    (applyDebits now v ms').remainingMinutes = v.durationMinutes - ms.sum := by
  have hsum' : ms'.sum = ms.sum := hperm.sum_eq
  have hnn' : ∀ m ∈ ms', 0 ≤ m := fun m hm => hnn m (hperm.mem_iff.mp hm)
  rw [applyDebits_remaining now ms' v hnn' (by rw [hsum']; exact hsum), hsum', hfresh]

/-- Witness for C4 at a concrete input: the debit set `{3, 4}` applied to a
fresh 10-minute voucher in the order `[4, 3]`. -/
theorem concurrent_debits_no_lost_updates_witness :
    (applyDebits 0
      { id := 40, code := "C4VOUCHER000", durationMinutes := 10,
        remainingMinutes := 10, isUsed := false, isActive := true,
        deviceId := none, usedAt := none, batchId := none }
      [4, 3]).remainingMinutes = 10 - ([3, 4] : List Int).sum :=
  concurrent_debits_no_lost_updates 0 _ [3, 4] [4, 3]
    (by decide) (by decide) (by decide) rfl

/-! ## C5: duration-to-minutes conversion -/

lemma minutesUsed_eq_ceil (s : Int) : minutesUsed s = ⌈(s : ℚ) / 60⌉ := by
  have h1 : (-((-s).fdiv 60) - 1) * 60 < s := by
    rw [Int.fdiv_eq_ediv _ (by norm_num)]; omega
  have h2 : s ≤ -((-s).fdiv 60) * 60 := by
    rw [Int.fdiv_eq_ediv _ (by norm_num)]; omega
  rw [minutesUsed, eq_comm, Int.ceil_eq_iff]
  constructor
  · rw [lt_div_iff₀ (by norm_num : (0:ℚ) < 60)]
    exact_mod_cast h1
  · rw [div_le_iff₀ (by norm_num : (0:ℚ) < 60)]
    exact_mod_cast h2

/-- **C5** (confirmed). For a nonnegative duration, `EndCall` computes the
billed minutes as the exact ceiling of `s / 60` (so 1 s → 1 min, 60 s → 1 min,
61 s → 2 min), and both the debit `UPDATE` applied to the store and the
returned balance use exactly that amount. -/
theorem endCall_bills_ceiling_of_seconds (s : Int) (_hs : 0 ≤ s) :
    minutesUsed s = ⌈(s : ℚ) / 60⌉ ∧
    minutesUsed 1 = 1 ∧ minutesUsed 60 = 1 ∧ minutesUsed 61 = 2 ∧
    ∀ (cid : String) (now : Nat) (db : DB) (call : CallLog) (vid : Nat) (v : Voucher),
      cid ≠ "" →
      findCallById db cid = some call →
      call.voucherId = some vid →
      findVoucherById db vid = some v →
      ∃ db',
        endCall cid s now db =
          .ok ({ remainingMinutes :=
                   max 0 (v.remainingMinutes - ⌈(s : ℚ) / 60⌉) }, db') ∧
        db'.vouchers = db.vouchers.map (fun w =>
          if w.id == vid then debitVoucher ⌈(s : ℚ) / 60⌉ now w else w) := by
  refine ⟨minutesUsed_eq_ceil s, by decide, by decide, by decide, ?_⟩
  intro cid now db call vid v hcid hcall hvid hv
  rw [← minutesUsed_eq_ceil]
  refine ⟨{ db with
      calls := db.calls.map (fun c =>
        if c.callId == cid then
          { c with durationSeconds := s, status := .completed, endedAt := some now }
        else c),
      vouchers := db.vouchers.map (fun w =>
        if w.id == vid then debitVoucher (minutesUsed s) now w else w) }, ?_, rfl⟩
  simp only [endCall, if_neg hcid, hcall, hvid, hv, Option.map_some, Option.map_some',
    Option.getD_some, debitVoucher]

/-- Witness for C5 at `s = 61` on a concrete store holding a voucher with 7
minutes left. -/
theorem endCall_bills_ceiling_of_seconds_witness :
    minutesUsed 61 = 2 ∧
    ∃ db',
      endCall "cw5" 61 3 dbC5w =
        .ok ({ remainingMinutes := max 0 (vC5w.remainingMinutes - ⌈((61 : Int) : ℚ) / 60⌉) },
             db') := by
  obtain ⟨_, _, _, h61, hcall⟩ := endCall_bills_ceiling_of_seconds 61 (by decide)
  obtain ⟨db', hrun, _⟩ := hcall "cw5" 3 dbC5w callC5w 50 vC5w (by decide) rfl rfl rfl
  exact ⟨h61, db', hrun⟩

/-! ## C6 (amended) and C9 (amended) -/

/-- **C6** (amended, confirmed). Provided `code` and `deviceId` are both
non-empty (the endpoint rejects empty request fields up front),
`ValidateVoucher` never returns an error: an unknown code, an inactive
voucher, a used voucher, and a non-positive balance all yield
`valid = false`, and an eligible voucher yields `valid = true` together with
its id and its remaining minutes. -/
theorem validate_nonempty_inputs_never_error
    (code dev : String) (db : DB) (hc : code ≠ "") (hd : dev ≠ "") :
    ∃ r db', validate code dev db = .ok (r, db') ∧
      (findVoucherByCode db (toUpperCase code) = none →
        r = { valid := false, durationMinutes := 0, voucherId := none }) ∧
      ∀ v, findVoucherByCode db (toUpperCase code) = some v →
        ((v.isActive = false ∨ v.isUsed = true ∨ v.remainingMinutes ≤ 0) →
          r = { valid := false, durationMinutes := 0, voucherId := none }) ∧
        (v.isActive = true → v.isUsed = false → 0 < v.remainingMinutes →
          r = { valid := true, durationMinutes := v.remainingMinutes,
                voucherId := some v.id }) := by
  unfold validate
  rw [if_neg (by push_neg; exact ⟨hc, hd⟩)]
  cases hfind : findVoucherByCode db (toUpperCase code) with
  | none =>
    refine ⟨_, _, rfl, fun _ => rfl, ?_⟩
    intro v hv
    cases hv
  | some v =>
    dsimp only
    by_cases hcond : v.isActive = false ∨ v.isUsed = true ∨ v.remainingMinutes ≤ 0
    · rw [if_pos hcond]
      refine ⟨_, _, rfl, ?_, ?_⟩
      · intro h; cases h
      · intro w hw
        cases hw
        refine ⟨fun _ => rfl, fun h1 h2 h3 => ?_⟩
        simp [h1, h2] at hcond
        omega
    · rw [if_neg hcond]
      refine ⟨_, _, rfl, ?_, ?_⟩
      · intro h; cases h
      · intro w hw
        cases hw
        exact ⟨fun h => absurd h hcond, fun _ _ _ => rfl⟩

/-- Witness for C6: validating an unknown non-empty code on an empty store
answers `valid = false` without error. -/
theorem validate_nonempty_inputs_never_error_witness :
    ∃ r db',
      validate "NOSUCHCODE00" "device1" { vouchers := [], calls := [], batches := [] } =
        .ok (r, db') ∧
      r = { valid := false, durationMinutes := 0, voucherId := none } := by
  obtain ⟨r, db', hrun, hnone, _⟩ := validate_nonempty_inputs_never_error
    "NOSUCHCODE00" "device1" { vouchers := [], calls := [], batches := [] }
    (by decide) (by decide)
  exact ⟨r, db', hrun, hnone rfl⟩

/-- **C9** (amended, confirmed). When the call exists but its voucher
reference matches no stored voucher (including a `NULL` reference left by
voucher deletion), the debit `UPDATE` matches no row, `EndCall` succeeds, the
response carries `remainingMinutes = 0`, and no voucher changes — there is no
`NotFound` failure. -/
theorem endCall_unknown_voucher_succeeds_with_zero
    (cid : String) (s : Int) (now : Nat) (db : DB) (call : CallLog)
    (hcid : cid ≠ "")
    (hfind : findCallById db cid = some call)
    (hvid : ∀ vid, call.voucherId = some vid → findVoucherById db vid = none) :
    ∃ db', endCall cid s now db = .ok ({ remainingMinutes := 0 }, db') ∧
      db'.vouchers = db.vouchers := by
  simp only [endCall, if_neg hcid, hfind]
  cases hv : call.voucherId with
  | none => exact ⟨_, rfl, rfl⟩
  | some vid =>
    have hnone : findVoucherById db vid = none := hvid vid hv
    have hall : ∀ v ∈ db.vouchers, (v.id == vid) = false := by
      intro v hvmem
      have hne : ¬ v.id = vid := by
        have h2 := hnone
        simp [findVoucherById, List.find?_eq_none] at h2
        exact h2 v hvmem
      simpa using hne
    have hmapid :
        db.vouchers.map (fun v =>
          if v.id == vid then debitVoucher (minutesUsed s) now v else v) =
          db.vouchers := by
      calc db.vouchers.map (fun v =>
              if v.id == vid then debitVoucher (minutesUsed s) now v else v)
          = db.vouchers.map id := by
            apply List.map_congr_left
            intro v hvmem
            simp [hall v hvmem]
        _ = db.vouchers := List.map_id db.vouchers
    simp only [hnone, hmapid, Option.map_none, Option.map_none', Option.getD_none]
    exact ⟨_, rfl, rfl⟩

/-- Witness for C9: the store `dbC9` holds call `c9` pointing at voucher id
99, which does not exist. -/
theorem endCall_unknown_voucher_succeeds_with_zero_witness :
    ∃ db', endCall "c9" 45 1 dbC9 = .ok ({ remainingMinutes := 0 }, db') ∧
      db'.vouchers = dbC9.vouchers := by
  exact endCall_unknown_voucher_succeeds_with_zero "c9" 45 1 dbC9
    { callId := "c9", voucherId := some 99, phoneNumber := "5559000",
      countryCode := "1", callType := "local", durationSeconds := 0,
      status := .active, startedAt := 0, endedAt := none, deviceId := none }
    (by decide) rfl (by intro vid h; cases h; rfl)

/-! ## C8: batch generation is all-or-nothing -/

lemma allocUniqueCode_fresh (gen : Nat → String) (existing : List String) :
    ∀ (fuel idx : Nat) (c : String) (idx' : Nat),
      allocUniqueCode gen existing idx fuel = some (c, idx') → c ∉ existing := by
  intro fuel
  induction fuel with
  | zero => intro idx c idx' h; cases h
  | succ fuel ih =>
    intro idx c idx' h
    rw [allocUniqueCode] at h
    by_cases hc : existing.contains (gen idx)
    · rw [if_pos hc] at h
      exact ih (idx + 1) c idx' h
    · rw [if_neg hc] at h
      cases h
      simpa using hc

lemma batchLoop_spec (gen : Nat → String) (fuel : Nat) (dm : Int)
    (batchId : Nat) (insertOk : Nat → Bool) :
    ∀ (q idx nextId : Nat) (existing : List String) (vs : List Voucher),
      batchLoop gen fuel dm batchId insertOk q idx nextId existing = some vs →
      vs.length = q ∧
      (∀ v ∈ vs, v.durationMinutes = dm ∧ v.remainingMinutes = dm ∧
        v.batchId = some batchId ∧ v.isUsed = false ∧ v.isActive = true) ∧
      (vs.map (fun v => v.code)).Nodup ∧
      (∀ v ∈ vs, v.code ∉ existing) := by
  intro q
  induction q with
  | zero =>
    intro idx nextId existing vs h
    rw [batchLoop] at h
    cases h
    simp
  | succ q ih =>
    intro idx nextId existing vs h
    rw [batchLoop] at h
    cases halloc : allocUniqueCode gen existing idx fuel with
    | none => rw [halloc] at h; cases h
    | some p =>
      obtain ⟨c, idx'⟩ := p
      rw [halloc] at h
      dsimp only at h
      by_cases hok : insertOk (q + 1)
      · rw [if_pos hok] at h
        cases hrec : batchLoop gen fuel dm batchId insertOk
            q idx' (nextId + 1) (existing ++ [c]) with
        | none => rw [hrec] at h; cases h
        | some vs' =>
          rw [hrec] at h
          dsimp only at h
          cases h
          have hfresh : c ∉ existing := allocUniqueCode_fresh gen existing fuel idx c idx' halloc
          obtain ⟨hlen, hprops, hnodup, hfreshrec⟩ := ih idx' (nextId + 1) (existing ++ [c]) vs' hrec
          refine ⟨by simp [hlen], ?_, ?_, ?_⟩
          · intro v hv
            rcases List.mem_cons.mp hv with hv | hv
            · subst hv; exact ⟨rfl, rfl, rfl, rfl, rfl⟩
            · exact hprops v hv
          · refine List.nodup_cons.mpr ⟨?_, hnodup⟩
            intro hmem
            obtain ⟨v, hvmem, hvcode⟩ := List.mem_map.mp hmem
            exact hfreshrec v hvmem (by rw [hvcode]; simp)
          · intro v hv
            rcases List.mem_cons.mp hv with hv | hv
            · subst hv; exact hfresh
            · intro hmem
              exact hfreshrec v hv (List.mem_append_left [c] hmem)
      · rw [if_neg hok] at h
        cases h

/-- **C8** (confirmed). For `1 ≤ quantity ≤ 1000` and a positive duration:
a successful batch request appends exactly `quantity` vouchers, each carrying
`remainingMinutes = durationMinutes` and the batch reference, with
pairwise-distinct codes; any failure (of a code allocation or of an insert,
injected through `insertOk`) rolls the transaction back, leaving the store
exactly as before. A quantity of 0 or above 1000 is rejected up front with an
invalid-argument error and no state change. -/
theorem allocateBatch_all_or_nothing
    (gen : Nat → String) (fuel : Nat) (insertOk : Nat → Bool)
    (quantity : Nat) (dm : Int) (batchId nextId : Nat) (db : DB)
    (hq1 : 1 ≤ quantity) (hq2 : quantity ≤ 1000) (hdm : 0 < dm) :
    (∀ codes db',
      allocateBatch gen fuel insertOk quantity dm batchId nextId db = (.ok codes, db') →
      ∃ vs, db'.vouchers = db.vouchers ++ vs ∧
        codes = vs.map (fun v => v.code) ∧
        vs.length = quantity ∧
        codes.Nodup ∧
        db'.calls = db.calls ∧
        ∀ v ∈ vs, v.remainingMinutes = dm ∧ v.durationMinutes = dm ∧
          v.batchId = some batchId) ∧
    (∀ e db',
      allocateBatch gen fuel insertOk quantity dm batchId nextId db = (.error e, db') →
      db' = db) ∧
    (∀ q', q' = 0 ∨ 1000 < q' →
      ∃ e, allocateBatch gen fuel insertOk q' dm batchId nextId db = (.error e, db)) := by
  have hcond : ¬ (quantity = 0 ∨ dm ≤ 0) := by omega
  have hcap : ¬ 1000 < quantity := by omega
  refine ⟨?_, ?_, ?_⟩
  · intro codes db' h
    rw [allocateBatch, if_neg hcond, if_neg hcap] at h
    cases hloop : batchLoop gen fuel dm batchId insertOk
        quantity 0 nextId (db.vouchers.map (fun v => v.code)) with
    | none => rw [hloop] at h; cases h
    | some vs =>
      rw [hloop] at h
      dsimp only at h
      cases h
      obtain ⟨hlen, hprops, hnodup, _⟩ :=
        batchLoop_spec gen fuel dm batchId insertOk quantity 0 nextId
          (db.vouchers.map (fun v => v.code)) vs hloop
      exact ⟨vs, rfl, rfl, hlen, hnodup, rfl,
        fun v hv => ⟨(hprops v hv).2.1, (hprops v hv).1, (hprops v hv).2.2.1⟩⟩
  · intro e db' h
    rw [allocateBatch, if_neg hcond, if_neg hcap] at h
    cases hloop : batchLoop gen fuel dm batchId insertOk
        quantity 0 nextId (db.vouchers.map (fun v => v.code)) with
    | none => rw [hloop] at h; cases h; rfl
    | some vs => rw [hloop] at h; cases h
  · intro q' hq'
    rcases hq' with hq' | hq'
    · subst hq'
      exact ⟨_, by rw [allocateBatch, if_pos (Or.inl rfl)]⟩
    · have hcond' : ¬ (q' = 0 ∨ dm ≤ 0) := by omega
      exact ⟨_, by rw [allocateBatch, if_neg hcond', if_pos hq']⟩

/-- Witness for C8: a batch of two 5-minute vouchers generated from the code
stream `K0, K1, ...` on an empty store. -/
theorem allocateBatch_all_or_nothing_witness :
    0 < (5 : Int) ∧
    ∃ db' vs,
      allocateBatch (fun i => "K" ++ toString i) 3 (fun _ => true) 2 5 7 100
          { vouchers := [], calls := [], batches := [] } = (.ok ["K0", "K1"], db') ∧
      db'.vouchers = [] ++ vs ∧
      (["K0", "K1"] : List String) = vs.map (fun v => v.code) ∧
      vs.length = 2 ∧
      (["K0", "K1"] : List String).Nodup := by
  refine ⟨by decide, ?_⟩
  obtain ⟨hok, _, _⟩ := allocateBatch_all_or_nothing (fun i => "K" ++ toString i) 3
    (fun _ => true) 2 5 7 100 { vouchers := [], calls := [], batches := [] }
    (by decide) (by decide) (by decide)
  obtain ⟨vs, hv, hc, hl, hnd, _, _⟩ := hok ["K0", "K1"] _ rfl
  exact ⟨_, vs, rfl, hv, hc, hl, hnd⟩

/-! ## C10: call statuses stay in {active, completed} -/

lemma validate_ok_calls (code dev : String) (db : DB) (r : ValidateResp) (db' : DB)
    (h : validate code dev db = .ok (r, db')) : db'.calls = db.calls := by
  unfold validate at h
  by_cases hreq : code = "" ∨ dev = ""
  · rw [if_pos hreq] at h; cases h
  · rw [if_neg hreq] at h
    cases hfind : findVoucherByCode db (toUpperCase code) with
    | none => rw [hfind] at h; cases h; rfl
    | some v =>
      rw [hfind] at h
      dsimp only at h
      by_cases hcond : v.isActive = false ∨ v.isUsed = true ∨ v.remainingMinutes ≤ 0
      · rw [if_pos hcond] at h; cases h; rfl
      · rw [if_neg hcond] at h; cases h; rfl

lemma startCall_ok_calls (vid : Nat) (p cc ct fid : String) (now : Nat) (db : DB)
    (r : StartCallResp) (db' : DB)
    (h : startCall vid p cc ct fid now db = .ok (r, db')) :
    ∃ c, db'.calls = db.calls ++ [c] ∧ c.status = .active := by
  unfold startCall at h
  by_cases hreq : p = "" ∨ cc = "" ∨ ct = ""
  · rw [if_pos hreq] at h; cases h
  · rw [if_neg hreq] at h
    cases hfind : db.vouchers.find? (fun v => v.id == vid && v.isActive && !v.isUsed) with
    | none => rw [hfind] at h; cases h
    | some v =>
      rw [hfind] at h
      dsimp only at h
      by_cases hrem : v.remainingMinutes ≤ 0
      · rw [if_pos hrem] at h; cases h
      · rw [if_neg hrem] at h
        cases h
        exact ⟨_, rfl, rfl⟩

lemma endCall_ok_calls (cid : String) (s : Int) (now : Nat) (db : DB)
    (r : EndCallResp) (db' : DB)
    (h : endCall cid s now db = .ok (r, db')) :
    ∀ x ∈ db'.calls, ∃ y ∈ db.calls, x.status = .completed ∨ x.status = y.status := by
  unfold endCall at h
  by_cases hreq : cid = ""
  · rw [if_pos hreq] at h; cases h
  · rw [if_neg hreq] at h
    cases hfind : findCallById db cid with
    | none => rw [hfind] at h; cases h
    | some call =>
      rw [hfind] at h
      dsimp only at h
      cases h
      intro x hx
      simp only [List.mem_map] at hx
      obtain ⟨y, hy, hxy⟩ := hx
      refine ⟨y, hy, ?_⟩
      subst hxy
      by_cases hcid : y.callId == cid
      · rw [if_pos hcid]; exact Or.inl rfl
      · rw [if_neg hcid]; exact Or.inr rfl

lemma generateVoucher_snd_calls (gen : Nat → String) (fuel : Nat) (dm : Int)
    (nid : Nat) (db : DB) :
    (generateVoucher gen fuel dm nid db).2.calls = db.calls := by
  unfold generateVoucher
  by_cases hdm : dm ≤ 0
  · rw [if_pos hdm]
  · rw [if_neg hdm]
    cases halloc : allocUniqueCode gen (db.vouchers.map (fun v => v.code)) 0 fuel with
    | none => rfl
    | some p => obtain ⟨c, i⟩ := p; rfl

lemma allocateBatch_snd_calls (gen : Nat → String) (fuel : Nat) (iok : Nat → Bool)
    (q : Nat) (dm : Int) (bid nid : Nat) (db : DB) :
    (allocateBatch gen fuel iok q dm bid nid db).2.calls = db.calls := by
  unfold allocateBatch
  by_cases hc1 : q = 0 ∨ dm ≤ 0
  · rw [if_pos hc1]
  · rw [if_neg hc1]
    by_cases hc2 : 1000 < q
    · rw [if_pos hc2]
    · rw [if_neg hc2]
      cases hloop : batchLoop gen fuel dm bid iok q 0 nid
          (db.vouchers.map (fun v => v.code)) with
      | none => rfl
      | some vs => rfl

/-- **C10** (confirmed). In every store reachable from a call-free store
through the endpoints, every call record's status is `active` or `completed`:
`StartCall` only creates `active` calls and `EndCall` only ever writes
`completed`, so the schema's `failed` and `cancelled` statuses are never
produced. -/
theorem reachable_call_status_active_or_completed
    (db : DB) (h : Reachable db) :
    ∀ c ∈ db.calls, c.status = .active ∨ c.status = .completed := by
  induction h with
  | init vs bs => intro c hc; cases hc
  | vstep code dev db r db' _ hrun ih =>
    intro c hc
    rw [validate_ok_calls code dev db r db' hrun] at hc
    exact ih c hc
  | sstep vid p cc ct fid now db r db' _ hrun ih =>
    intro c hc
    obtain ⟨c₀, hcalls, hst⟩ := startCall_ok_calls vid p cc ct fid now db r db' hrun
    rw [hcalls] at hc
    rcases List.mem_append.mp hc with hc | hc
    · exact ih c hc
    · rw [List.mem_singleton.mp hc]
      exact Or.inl hst
  | estep cid s now db r db' _ hrun ih =>
    intro c hc
    obtain ⟨y, hy, hst⟩ := endCall_ok_calls cid s now db r db' hrun c hc
    rcases hst with hst | hst
    · exact Or.inr hst
    · rw [hst]; exact ih y hy
  | gstep gen fuel dm nid db c db' _ hrun ih =>
    intro x hx
    have hsnd : (generateVoucher gen fuel dm nid db).2 = db' := by rw [hrun]
    have hcalls : db'.calls = db.calls := by
      rw [← hsnd]
      exact generateVoucher_snd_calls gen fuel dm nid db
    rw [hcalls] at hx
    exact ih x hx
  | bstep gen fuel iok q dm bid nid db cs db' _ hrun ih =>
    intro x hx
    have hsnd : (allocateBatch gen fuel iok q dm bid nid db).2 = db' := by rw [hrun]
    have hcalls : db'.calls = db.calls := by
      rw [← hsnd]
      exact allocateBatch_snd_calls gen fuel iok q dm bid nid db
    rw [hcalls] at hx
    exact ih x hx

/-- Witness for C10: a store reached by starting one call on a fresh voucher;
its single call is `active`. -/
theorem reachable_call_status_witness :
    callC10w.status = .active ∨ callC10w.status = .completed :=
  reachable_call_status_active_or_completed dbC10w
    (Reachable.sstep 60 "5551060" "1" "local" "cw10" 4
      { vouchers := [vC10w], calls := [], batches := [] }
      { callId := "cw10", remainingMinutes := 6 } dbC10w
      (Reachable.init [vC10w] []) rfl)
    callC10w (by decide)

